import Mathlib

/-
Verification development for the Networking-App client
(src/frontend/scripts/database.ts, src/frontend/app/(tabs)/index.tsx,
src/frontend/app/(tabs)/people.tsx, src/unnamed/part_001).

The repository's frontend contains two concatenated variants of the home
screen in index.tsx and of the people screen in people.tsx; we embed both
where they differ.  JavaScript runtime values that the code inspects
dynamically are modelled by the `Json` type below; fields typed as optional
strings in the TypeScript interfaces are modelled as `Option String`
(`none` = the JS property is absent/undefined).
-/

namespace NetworkingApp

/-- JavaScript/JSON runtime values, as far as the client code inspects them.
`num` carries an integer; no claim in scope inspects fractional numbers. -/
inductive Json where
  | null : Json
  | bool (b : Bool) : Json
  | num (n : Int) : Json
  | str (s : String) : Json
  | arr (elems : List Json) : Json
  | obj (fields : List (String × Json)) : Json
deriving Inhabited

namespace Json

/-- JavaScript truthiness of a value. -/
def truthy : Json → Bool
  | .null => false
  | .bool b => b
  | .num n => !(n == 0)
  | .str s => !(s == "")
  | .arr _ => true
  | .obj _ => true

/-- Whether a JS value satisfies the check `typeof v === 'object'`
(true for objects, arrays and null). -/
def isJsObjectType : Json → Bool
  | .null => true
  | .arr _ => true
  | .obj _ => true
  | _ => false

/-- Property access `v[key]`: `none` models the JS value `undefined`.
On primitives JS boxing yields `undefined` for any property; on arrays the
named properties read here are likewise `undefined`.  (JS property access on
`null` throws; no code path settled here reaches a field access on `null`,
so this total model agrees with the source on every input we use.) -/
def getField : Json → String → Option Json
  | .obj fields, key => (fields.find? (fun p => p.1 == key)).map (fun p => p.2)
  | _, _ => none

/-- Whether a JS value satisfies the guard `Array.isArray(v)`. -/
def isArray : Json → Bool
  | .arr _ => true
  | _ => false

end Json

/-- JavaScript `String.prototype.trim`: strips leading and trailing
whitespace.  (JS also strips some exotic Unicode space characters; every
string a settled claim evaluates contains only ASCII whitespace, where the
two agree.)  Defined by structural recursion so that concrete instances
reduce in the kernel. -/
def jsTrim (s : String) : String :=
  ((s.data.dropWhile Char.isWhitespace).reverse.dropWhile Char.isWhitespace).reverse.asString

/-- JavaScript `a || b` where `a` is a string-or-undefined value and `b` a
string: the result is `a` when it is a non-empty (truthy) string, else `b`.
Used for the `x || fallback` chains in the screens (database.ts types the
record fields as optional strings). -/
def strOr (a : Option String) (b : String) : String :=
  match a with
  | some s => if s == "" then b else s
  | none => b

/-- JavaScript `a || b` where both operands are string-or-undefined values
(variant 1 of the home screen builds `e._id || e.id` with no final literal
fallback, so the result can itself be undefined). -/
def strOrOpt (a b : Option String) : Option String :=
  match a with
  | some s => if s == "" then b else some s
  | none => b

/- ===== HTTP client: src/frontend/scripts/database.ts ===== -/

/-- Outcome of the platform `fetch` plus `response.json()`:
either the fetch promise rejected (transport error), or a response arrived
with an HTTP status and a body; `body = none` means `response.json()`
threw (the body is not parseable as JSON). -/
inductive FetchOutcome where
  | networkError (msg : String) : FetchOutcome
  | response (status : Nat) (body : Option Json) : FetchOutcome

/-- Response.ok of the platform fetch: status in the range 200-299. -/
def responseOk (status : Nat) : Bool :=
  decide (200 ≤ status) && decide (status ≤ 299)

/-- Embedding of `serializeError` (database.ts lines 100-109): the message of
the error thrown for a non-2xx response.  The source checks
`body && typeof body === 'object' && body !== null`, reads `body.error`, and
uses it only when it is a string with `message.length > 0`. -/
def serializeError (status : Nat) (body : Json) : String :=
  let defaultMessage := "Request failed with status " ++ toString status
  if body.truthy && body.isJsObjectType then
    match body.getField "error" with
    | some (Json.str message) =>
        if message.length > 0 then message else defaultMessage
    | _ => defaultMessage
  else defaultMessage

/-- Embedding of `request` (database.ts lines 128-154), given the fetch
outcome for the built request.  A parse failure of the body is swallowed
(`responseBody` stays null); a non-2xx status throws
`Error(serializeError(response, responseBody))`; otherwise the parsed body
is returned.  `Except.error` carries the thrown error's message. -/
def request (outcome : FetchOutcome) : Except String Json :=
  match outcome with
  | .networkError msg => .error msg
  | .response status body =>
      let responseBody : Json := body.getD Json.null
      if responseOk status then .ok responseBody
      else .error (serializeError status responseBody)

/-- Embedding of `buildQueryString` (database.ts lines 111-126): parameters
whose value is undefined or null (`none`) are omitted; others are serialized
as key=value pairs.  (`String(value)` has already been applied to the pair
values; URLSearchParams percent-encoding is not modelled — every username
appearing in a settled claim is percent-free.) -/
def buildQueryString (params : List (String × Option String)) : String :=
  let pairs := params.filterMap (fun p => p.2.map (fun v => p.1 ++ "=" ++ v))
  let queryString := String.intercalate "&" pairs
  if queryString == "" then "" else "?" ++ queryString

/-- An HTTP request as issued by the client: method and path (the path
includes the query string). -/
structure HttpRequest where
  method : String
  path : String
deriving DecidableEq, Repr

/- ===== Domain gateway: src/frontend/scripts/database.ts ===== -/

/-- The TypeScript `TaskRecord` interface (database.ts lines 86-94); every
field is optional. -/
structure TaskRecord where
  _id : Option String := none
  id : Option String := none
  info : Option String := none
  type : Option String := none
  status : Option String := none
  dateTime : Option String := none
  eventId : Option String := none
deriving DecidableEq, Repr, Inhabited

/-- The TypeScript `EventRecord` interface (database.ts lines 77-84). -/
structure EventRecord where
  _id : Option String := none
  id : Option String := none
  name : Option String := none
  coverImage : Option String := none
  date : Option String := none
  tasks : Option (List String) := none
deriving DecidableEq, Repr, Inhabited

/-- The `{success, tasks?, error?}` envelope returned by
`GET /get-user-tasks` (database.ts lines 287-294). -/
structure TasksEnvelope where
  success : Bool
  tasks : Option (List TaskRecord) := none
  error : Option String := none
deriving DecidableEq, Repr

/-- The `{success, events?, error?}` envelope returned by
`GET /get-events` (database.ts lines 272-279). -/
structure EventsEnvelope where
  success : Bool
  events : Option (List EventRecord) := none
  error : Option String := none
deriving DecidableEq, Repr

/-- Server behaviour seen by the gateway, one oracle per endpoint used by the
settled claims: for a given username, the outcome of the endpoint's request
(`Except.error` = the call's promise rejected with that message, which is how
`request` surfaces transport errors and non-2xx statuses). -/
structure Net where
  userTasksOutcome : String → Except String TasksEnvelope
  eventsOutcome : String → Except String EventsEnvelope

/-- The single HTTP request issued by `getUserTasks(username)`
(database.ts lines 287-294): a GET of /get-user-tasks with the username as
query parameter. -/
def getUserTasksRequest (username : String) : HttpRequest :=
  { method := "GET",
    path := "/get-user-tasks" ++ buildQueryString [("username", some username)] }

/-- Embedding of `getUserTasks` (database.ts lines 287-294): the outcome the
oracle assigns to its endpoint, paired with the list of HTTP requests the
operation issues. -/
def getUserTasksRun (net : Net) (username : String) :
    Except String TasksEnvelope × List HttpRequest :=
  (net.userTasksOutcome username, [getUserTasksRequest username])

/-- The `.then` continuation inside `getFinishedTasks` (database.ts lines
296-301): destructures `{tasks}` from the envelope (ignoring `success` and
`error`), defaults a missing list to `[]`, filters for
`status === 'completed'`, and fulfills with `{success: true, tasks}`.
A rejection of the underlying promise passes through untouched. -/
def getFinishedTasksThen (outcome : Except String TasksEnvelope) :
    Except String TasksEnvelope :=
  match outcome with
  | .error e => .error e
  | .ok envelope =>
      let filteredTasks := envelope.tasks.getD []
      let completedTasks :=
        filteredTasks.filter (fun task => task.status == some "completed")
      .ok { success := true, tasks := some completedTasks, error := none }

/-- Embedding of `getFinishedTasks` (database.ts lines 296-301): it is
`getUserTasks(username).then(...)` — the same network interaction, with a
purely local continuation that issues no further request. -/
def getFinishedTasksRun (net : Net) (username : String) :
    Except String TasksEnvelope × List HttpRequest :=
  let r := getUserTasksRun net username
  (getFinishedTasksThen r.1, r.2)

/- ===== Normalization layer: the displayed event lists ===== -/

/-- JavaScript `a || b` where `a` may be undefined and `b` is always a
value: the first truthy operand, else `b`. -/
def jsOr (a : Option Json) (b : Json) : Json :=
  match a with
  | some v => if v.truthy then v else b
  | none => b

/-- The guard `Array.isArray(v) ? v : []` applied to a possibly-absent
user-record field (index.tsx line 32 / line 691, part_001 lines 10 and 24). -/
def jsArrayOrEmpty (v : Option Json) : List Json :=
  match v with
  | some (.arr xs) => xs
  | _ => []

/-- One entry of a displayed event list.  The TS code types the entries
`{id: string; name: string; date?: string}`, but on the first home-screen
variant's fetched branch `id`/`name` are produced with no fallback and can be
undefined at runtime (`none` here); embedded-branch entries built by dynamic
inspection can carry non-string values, hence `Json`. -/
structure DisplayEvent where
  id : Option Json
  name : Option Json
  date : Option Json

/-- Element mapping of the fetched-records branch, home-screen variant 1
(index.tsx lines 83-87): `{id: e._id || e.id, name: e.name, date: e.date}` —
note: no synthetic fallback for `id` and no placeholder for `name`. -/
def fetched1Display (i : Nat) (e : EventRecord) : DisplayEvent :=
  { id := (strOrOpt e._id e.id).map Json.str,
    name := e.name.map Json.str,
    date := e.date.map Json.str }

/-- Fetched-records branch of home-screen variant 1; the recursion index
models the second argument of `Array.prototype.map`.  (`i` is unused by the
element mapping of this variant, mirroring the unused `i` of the source's
arrow function.) -/
def deriveFetched1Aux (i : Nat) : List EventRecord → List DisplayEvent
  | [] => []
  | e :: rest => fetched1Display i e :: deriveFetched1Aux (i + 1) rest

/-- Element mapping of the fetched-records branch, home-screen variant 2
(index.tsx lines 774-778): `{id: e._id || e.id || event-i,
name: e.name || Event i+1, date: e.date}`. -/
def fetched2Display (i : Nat) (e : EventRecord) : DisplayEvent :=
  { id := some (Json.str (strOr e._id (strOr e.id ("event-" ++ toString i)))),
    name := some (Json.str (strOr e.name ("Event " ++ toString (i + 1)))),
    date := e.date.map Json.str }

/-- Fetched-records branch of home-screen variant 2. -/
def deriveFetched2Aux (i : Nat) : List EventRecord → List DisplayEvent
  | [] => []
  | e :: rest => fetched2Display i e :: deriveFetched2Aux (i + 1) rest

/-- Element mapping of the embedded-references branch, identical in both
home-screen variants (index.tsx lines 89-98 and 780-789): a string entry
becomes `{id: e, name: Event i+1}`; any other entry is treated as an object
and its `_id`/`id`/`name`/`date` properties are read dynamically. -/
def embeddedDisplay (i : Nat) (e : Json) : DisplayEvent :=
  match e with
  | .str s =>
      { id := some (Json.str s),
        name := some (Json.str ("Event " ++ toString (i + 1))),
        date := none }
  | obj =>
      { id := some (jsOr (obj.getField "_id")
                (jsOr (obj.getField "id") (Json.str ("event-" ++ toString i)))),
        name := some (jsOr (obj.getField "name")
                (Json.str ("Event " ++ toString (i + 1)))),
        date := obj.getField "date" }

/-- Embedded-references branch of the displayed event list. -/
def deriveEmbeddedAux (i : Nat) : List Json → List DisplayEvent
  | [] => []
  | e :: rest => embeddedDisplay i e :: deriveEmbeddedAux (i + 1) rest

/-- Displayed event list of home-screen variant 1 (index.tsx lines 81-99):
prefer the fetched records when there is at least one, else map the
embedded `user.events` entries. -/
def displayEvents1 (fetchedEvents : List EventRecord) (userEvents : List Json) :
    List DisplayEvent :=
  if fetchedEvents.length > 0 then deriveFetched1Aux 0 fetchedEvents
  else deriveEmbeddedAux 0 userEvents

/-- Displayed event list of home-screen variant 2 (index.tsx lines
772-790). -/
def displayEvents2 (fetchedEvents : List EventRecord) (userEvents : List Json) :
    List DisplayEvent :=
  if fetchedEvents.length > 0 then deriveFetched2Aux 0 fetchedEvents
  else deriveEmbeddedAux 0 userEvents

/-- The `.then` handler of the events effect, both variants (index.tsx lines
61-66 / 722-728): `if (response.success && response.events)
setFetchedEvents(response.events)` — an array value (even empty) is truthy,
so only a missing `events` field or `success: false` leaves the previous
state in place. -/
def applyEventsEnvelope (envelope : EventsEnvelope)
    (fetchedEvents : List EventRecord) : List EventRecord :=
  match envelope.success, envelope.events with
  | true, some events => events
  | _, _ => fetchedEvents

/- ===== part_001 home screen: eventEntries ===== -/

/-- String escaping of the platform `JSON.stringify` for the characters the
repository's data can contain (quote, backslash and the named control
characters; `\:u` escapes of other control characters are not modelled —
no settled claim evaluates a label). -/
def escapeJsonString (s : String) : String :=
  s.foldl (fun acc c =>
    acc ++ (if c = '"' then "\\\""
            else if c = '\\' then "\\\\"
            else if c = '\n' then "\\n"
            else if c = '\r' then "\\r"
            else if c = '\t' then "\\t"
            else String.singleton c)) ""

mutual

/-- The platform `JSON.stringify` (no spacing argument) on the values `Json`
can represent; `undefined`, functions and symbols (on which stringify
returns undefined) are not representable, so the source's
`?? \x60Event ...\x60` fallback after it can never fire here. -/
def jsonStringify : Json → String
  | .null => "null"
  | .bool true => "true"
  | .bool false => "false"
  | .num n => toString n
  | .str s => "\"" ++ escapeJsonString s ++ "\""
  | .arr elems => "[" ++ jsonStringifyList elems ++ "]"
  | .obj fields => "\x7b" ++ jsonStringifyFields fields ++ "\x7d"

/-- Comma-separated serialization of an array's elements. -/
def jsonStringifyList : List Json → String
  | [] => ""
  | [x] => jsonStringify x
  | x :: y :: rest => jsonStringify x ++ "," ++ jsonStringifyList (y :: rest)

/-- Comma-separated serialization of an object's fields. -/
def jsonStringifyFields : List (String × Json) → String
  | [] => ""
  | [p] => "\"" ++ escapeJsonString p.1 ++ "\":" ++ jsonStringify p.2
  | p :: q :: rest =>
      "\"" ++ escapeJsonString p.1 ++ "\":" ++ jsonStringify p.2 ++ ","
        ++ jsonStringifyFields (q :: rest)

end

/-- One `{id, label}` entry of the part_001 lists. -/
structure ListEntry where
  id : String
  label : String
deriving DecidableEq, Repr

/-- Body of the `eventEntries` map (src/unnamed/part_001 lines 11-20):
a string entry keeps itself as id and label; any other entry gets the
synthetic id `event-index` and `JSON.stringify(value ?? '')` as label
(`value ?? ''` replaces null by the empty string). -/
def eventEntriesAux (index : Nat) : List Json → List ListEntry
  | [] => []
  | value :: rest =>
      (match value with
       | .str s => ({ id := s, label := s } : ListEntry)
       | .null =>
           { id := "event-" ++ toString index, label := jsonStringify (Json.str "") }
       | v =>
           { id := "event-" ++ toString index, label := jsonStringify v })
        :: eventEntriesAux (index + 1) rest

/-- Embedding of `eventEntries` (src/unnamed/part_001 lines 9-21):
`Array.isArray(user?.events)` guards the source list, else `[]`. -/
def eventEntries (userEventsField : Option Json) : List ListEntry :=
  eventEntriesAux 0 (jsArrayOrEmpty userEventsField)

/- ===== View state controller: home-screen variant 2 effects (C4) ===== -/

/-- Outcome of an asynchronous call as observed by an `await` / `.then`:
the promise fulfilled with a value, or rejected and the catch handler
received this error message. -/
inductive PromiseOutcome (α : Type) where
  | resolved (value : α) : PromiseOutcome α
  | thrown (message : String) : PromiseOutcome α
deriving DecidableEq, Repr

/-- The state slices of home-screen variant 2 touched by its two
username-driven effects (index.tsx lines 694-699). -/
structure Home2Data where
  fetchedEvents : List EventRecord
  loadingEvents : Bool
  tasks : List TaskRecord
  finishedCount : Nat
  loadingTasks : Bool
deriving DecidableEq, Repr

/-- A home screen together with its effect bookkeeping.  Each execution of
the events effect (index.tsx lines 713-740) owns a `cancelled` flag that its
cleanup sets to true; since React runs the cleanup of run r exactly when a
later run starts, run r is cancelled iff r is no longer the newest run —
modelled by `currentRun`.  The tasks effect (lines 762-769) registers no
cleanup and `loadTasks` (lines 742-760) consults no flag. -/
structure HomeMachine where
  data : Home2Data
  currentRun : Nat
deriving DecidableEq, Repr

/-- A change of the active username: the previous effect runs' cleanups fire
(cancelling the previous events fetch), then the new effect bodies run.
With a username both effects start fetches and raise their loading flags
(index.tsx lines 719-720 and 743, 768); with none they clear their slices
and fetch nothing (lines 714-717 and 763-766). -/
def stepUsernameChange (m : HomeMachine) (username : Option String) : HomeMachine :=
  match username with
  | none =>
      { m with currentRun := m.currentRun + 1,
               data := { m.data with fetchedEvents := [], tasks := [], finishedCount := 0 } }
  | some _ =>
      { m with currentRun := m.currentRun + 1,
               data := { m.data with loadingEvents := true, loadingTasks := true } }

/-- Completion of the events fetch started by effect run `run` (index.tsx
lines 722-735): every callback first checks the run's `cancelled` flag, so a
stale run leaves the machine untouched; a live run applies the envelope (or
only clears the loading flag when the promise rejected — the catch handler
just logs). -/
def stepEventsResolve (m : HomeMachine) (run : Nat)
    (outcome : PromiseOutcome EventsEnvelope) : HomeMachine :=
  if run = m.currentRun then
    match outcome with
    | .resolved envelope =>
        { m with data := { m.data with
            fetchedEvents := applyEventsEnvelope envelope m.data.fetchedEvents,
            loadingEvents := false } }
    | .thrown _ =>
        { m with data := { m.data with loadingEvents := false } }
  else m

/-- Completion of a `loadTasks` call (index.tsx lines 744-759): the joined
`getUserTasks`/`getFinishedTasks` pair is applied unconditionally — there is
no cancellation flag, so this step does not depend on which run started the
call.  `Array.isArray(response.tasks)` holds exactly when the field is
present in the typed envelope. -/
def stepTasksResolve (m : HomeMachine)
    (outcome : PromiseOutcome (TasksEnvelope × TasksEnvelope)) : HomeMachine :=
  match outcome with
  | .resolved (tasksResponse, finishedResponse) =>
      { m with data := { m.data with
          tasks := (match tasksResponse.success, tasksResponse.tasks with
                    | true, some ts => ts
                    | _, _ => m.data.tasks),
          finishedCount := (match finishedResponse.success, finishedResponse.tasks with
                    | true, some ts => ts.length
                    | _, _ => m.data.finishedCount),
          loadingTasks := false } }
  | .thrown _ => { m with data := { m.data with loadingTasks := false } }

/- ===== Form mutations (C5, C7) ===== -/

/-- Request body of `createTask` (database.ts lines 221-230). -/
structure CreateTaskPayload where
  username : String
  info : String
  type : String
  eventId : Option String := none
deriving DecidableEq, Repr

/-- The `{success, task?, error?}` envelope of `POST /create-task`
(database.ts lines 221-230). -/
structure CreateTaskEnvelope where
  success : Bool
  task : Option TaskRecord := none
  error : Option String := none
deriving DecidableEq, Repr

/-- Local validation phase of `handleCreateTask`, home-screen variant 1
(index.tsx lines 124-145): an `Except.error` is the form error set by an
early return — `createTask` is never invoked; an `Except.ok` is the payload
passed to `createTask`.  The guard `if (!username)` (line 125) is true for
an undefined username and also for the empty string (JS falsiness), so both
reject with "User not available" before the info check runs. -/
def handleCreateTask1Request (username : Option String) (taskInfo taskType : String)
    (selectedEventId : Option String) : Except String CreateTaskPayload :=
  match username with
  | none => .error "User not available"
  | some u =>
      if u == "" then .error "User not available"
      else
        let trimmedInfo := jsTrim taskInfo
        if trimmedInfo == "" then .error "Task info is required"
        else .ok { username := u, info := trimmedInfo, type := taskType,
                   eventId := selectedEventId }

/-- Local validation phase of `handleCreateTask`, home-screen variant 2
(index.tsx lines 851-871): identical checks, including the falsy
`if (!username)` guard at line 852; the payload carries no eventId. -/
def handleCreateTask2Request (username : Option String) (taskInfo taskType : String) :
    Except String CreateTaskPayload :=
  match username with
  | none => .error "User not available"
  | some u =>
      if u == "" then .error "User not available"
      else
        let trimmedInfo := jsTrim taskInfo
        if trimmedInfo == "" then .error "Task info is required"
        else .ok { username := u, info := trimmedInfo, type := taskType, eventId := none }

/-- One entry of variant 1's locally-spliced task list (index.tsx lines
20-25). -/
structure TaskEntry where
  id : String
  label : String
  type : Option String := none
  eventName : Option String := none
deriving DecidableEq, Repr

/-- The form/list state of home-screen variant 1 touched by
`handleCreateTask` (index.tsx lines 39-48). -/
structure Home1FormState where
  createdTasks : List TaskEntry
  modalVisible : Bool
  isDropdownOpen : Bool
  formError : Option String
  isSubmitting : Bool
deriving DecidableEq, Repr

/-- Continuation of `handleCreateTask`, variant 1 (index.tsx lines 139-165),
applied once the `createTask` call settles.  `now` stands for `Date.now()`
in the synthetic id fallback; `selectedEventName` is the precomputed
`selectedEventId ? getEventName(selectedEventId) : undefined`.  On
`success && task` the new entry is spliced in front and the modal closed; on
a logical failure the error (or a default) goes to the form and nothing else
changes; a thrown error likewise; `finally` clears `isSubmitting`. -/
def applyCreateTask1Outcome (now : Nat) (trimmedInfo taskType : String)
    (selectedEventName : Option String)
    (outcome : PromiseOutcome CreateTaskEnvelope)
    (st : Home1FormState) : Home1FormState :=
  match outcome with
  | .resolved response =>
      match response.success, response.task with
      | true, some task =>
          let newTask : TaskEntry :=
            { id := strOr task._id (strOr task.id ("task-" ++ toString now)),
              label := trimmedInfo,
              type := some taskType,
              eventName := selectedEventName }
          { st with createdTasks := newTask :: st.createdTasks,
                    modalVisible := false, isDropdownOpen := false,
                    isSubmitting := false }
      | _, _ =>
          { st with formError := some (strOr response.error "Failed to create task"),
                    isSubmitting := false }
  | .thrown message =>
      { st with formError := some message, isSubmitting := false }

/-- The form state of home-screen variant 2 touched by `handleCreateTask`
(index.tsx lines 702-706). -/
structure Home2FormState where
  modalVisible : Bool
  formError : Option String
  isSubmitting : Bool
deriving DecidableEq, Repr

/-- Continuation of `handleCreateTask`, variant 2 (index.tsx lines 866-884):
on `success` the modal closes and `loadTasks(username)` refetches (the
returned flag); on a logical failure or a thrown error the message goes to
the form and no refetch happens. -/
def applyCreateTask2Outcome (outcome : PromiseOutcome CreateTaskEnvelope)
    (st : Home2FormState) : Home2FormState × Bool :=
  match outcome with
  | .resolved response =>
      if response.success then
        ({ st with modalVisible := false, isSubmitting := false }, true)
      else
        ({ st with formError := some (strOr response.error "Failed to create task"),
                   isSubmitting := false }, false)
  | .thrown message =>
      ({ st with formError := some message, isSubmitting := false }, false)

/-- Request body of `addConnection` as sent by the people screen's creation
form (database.ts lines 251-261; people.tsx lines 545-549 — the first
people-screen variant, lines 104-110, adds optional email/phone fields but
has the same control flow). -/
structure AddConnectionPayload where
  username : String
  connectionName : String
  note : String
deriving DecidableEq, Repr

/-- The `{success, connection?, error?}` envelope of `POST /add-connection`
(database.ts lines 251-261). -/
structure AddConnectionEnvelope where
  success : Bool
  connection : Option Json := none
  error : Option String := none

/-- The people-screen state touched by `handleCreateConnection`
(people.tsx lines 480-489). -/
structure PeopleFormState where
  connections : List Json
  modalVisible : Bool
  formError : Option String
  connectionName : String
  connectionNote : String
  isSubmittingConnection : Bool

/-- Local validation phase of `handleCreateConnection` (people.tsx lines
528-549, same in the first variant at lines 87-110): the screen's username
is already a string (empty when absent), and an empty trimmed name or note
rejects before any network call. -/
def handleCreateConnectionRequest (username connectionName connectionNote : String) :
    Except String AddConnectionPayload :=
  if username == "" then .error "Current user is unavailable"
  else
    let trimmedName := jsTrim connectionName
    let trimmedNote := jsTrim connectionNote
    if trimmedName == "" || trimmedNote == "" then .error "Name and note are required"
    else .ok { username := username, connectionName := trimmedName, note := trimmedNote }

/-- Continuation of `handleCreateConnection` (people.tsx lines 544-558):
when `addConnection` fulfills, the envelope — its `success` field included —
is never inspected: the modal is dismissed (which also resets the form and
clears the error) and `loadConnections()` refetches (the returned flag).
Only a thrown error reaches the form. -/
def applyAddConnectionOutcome (outcome : PromiseOutcome AddConnectionEnvelope)
    (st : PeopleFormState) : PeopleFormState × Bool :=
  match outcome with
  | .resolved _response =>
      ({ st with modalVisible := false, formError := none,
                 connectionName := "", connectionNote := "",
                 isSubmittingConnection := false }, true)
  | .thrown message =>
      ({ st with formError := some message, isSubmittingConnection := false }, false)

/- ===== Spec-side definitions and concrete scenario values ===== -/

/-- Amended claim C3, written from the spec's words: the message of the error
a non-2xx response produces is the body's `error` field when the parsed body
is a JSON object whose `error` field is a non-empty string; in every other
case (unparseable body included) it is the generic status message.  Compared
against the source-derived `request`/`serializeError` in the C3 theorem. -/
def specNon2xxMessage (status : Nat) (body : Option Json) : String :=
  match body with
  | some (Json.obj fields) =>
      (match (Json.obj fields).getField "error" with
       | some (Json.str message) =>
           if message ≠ "" then message
           else "Request failed with status " ++ toString status
       | _ => "Request failed with status " ++ toString status)
  | _ => "Request failed with status " ++ toString status

/-- An event record carrying neither `_id` nor `id` (nor anything else). -/
def bareEventRecord : EventRecord :=
  { _id := none, id := none, name := none, coverImage := none,
    date := none, tasks := none }

/-- A task list belonging to the user alice in the C4 scenario. -/
def aliceTasks : List TaskRecord :=
  [{ _id := some "t-alice", info := some "alice task", status := some "pending" }]

/-- A task list belonging to the user bob in the C4 scenario. -/
def bobTasks : List TaskRecord :=
  [{ _id := some "t-bob", info := some "bob task", status := some "pending" }]

/-- The home machine before any user is active. -/
def initialHomeMachine : HomeMachine :=
  { data := { fetchedEvents := [], loadingEvents := false,
              tasks := [], finishedCount := 0, loadingTasks := false },
    currentRun := 0 }

/-- The C4 scenario: the username changes to alice, then quickly to bob;
bob's `loadTasks` pair resolves first, alice's resolves after it. -/
def staleTasksScenario : HomeMachine :=
  let m1 := stepUsernameChange initialHomeMachine (some "alice")
  let m2 := stepUsernameChange m1 (some "bob")
  let m3 := stepTasksResolve m2
    (.resolved ({ success := true, tasks := some bobTasks },
                { success := true, tasks := some [] }))
  stepTasksResolve m3
    (.resolved ({ success := true, tasks := some aliceTasks },
                { success := true, tasks := some [] }))

/-- A people-screen state with the add-connection modal open and a filled
form, right before the `addConnection` call settles. -/
def examplePeopleState : PeopleFormState :=
  { connections := [], modalVisible := true, formError := none,
    connectionName := "Ada", connectionNote := "met at the expo",
    isSubmittingConnection := true }

/-- A logically failed add-connection envelope: HTTP 2xx, `success: false`,
with a server-supplied error message. -/
def failedAddConnectionEnvelope : AddConnectionEnvelope :=
  { success := false, connection := none, error := some "duplicate connection" }

/-- A user-tasks envelope with one completed and one pending task. -/
def mixedTasksEnvelope : TasksEnvelope :=
  { success := true,
    tasks := some [{ _id := some "t1", status := some "completed" },
                   { _id := some "t2", status := some "pending" }] }

/-- An oracle whose get-user-tasks endpoint always yields the mixed
envelope. -/
def mixedTasksNet : Net :=
  { userTasksOutcome := fun _ => .ok mixedTasksEnvelope,
    eventsOutcome := fun _ => .ok { success := true } }

/-- A logically failed user-tasks envelope (HTTP 2xx, success false). -/
def failedTasksEnvelope : TasksEnvelope :=
  { success := false, tasks := none, error := some "user not found" }

/-- An oracle whose get-user-tasks endpoint reports the logical failure. -/
def failedTasksNet : Net :=
  { userTasksOutcome := fun _ => .ok failedTasksEnvelope,
    eventsOutcome := fun _ => .ok { success := true } }

/-- Alice's event records in the C4 events scenario. -/
def aliceEventsList : List EventRecord :=
  [{ _id := some "e-alice", name := some "alice expo" }]

/-- Bob's event records in the C4 events scenario. -/
def bobEventsList : List EventRecord :=
  [{ _id := some "e-bob", name := some "bob meetup" }]

/-- A successful get-events envelope carrying alice's records. -/
def aliceEventsEnvelope : EventsEnvelope :=
  { success := true, events := some aliceEventsList }

/-- A successful get-events envelope carrying bob's records. -/
def bobEventsEnvelope : EventsEnvelope :=
  { success := true, events := some bobEventsList }

/-- A variant-1 home form state with the create-task modal open and one task
already listed. -/
def exampleHome1State : Home1FormState :=
  { createdTasks := [{ id := "t0", label := "existing task" }],
    modalVisible := true, isDropdownOpen := false,
    formError := none, isSubmitting := true }

/-- A variant-2 home form state with the create-task modal open. -/
def exampleHome2State : Home2FormState :=
  { modalVisible := true, formError := none, isSubmitting := true }

/- ===== Helper lemmas ===== -/

/-- A string is non-empty iff its length is positive. -/
theorem string_length_pos_iff (s : String) : 0 < s.length ↔ s ≠ "" := by
  constructor
  · intro h he
    subst he
    simp [String.length] at h
  · intro h
    cases s with
    | mk data =>
      cases data with
      | nil => simp at h
      | cons c cs => simp [String.length]

/-- Response.ok unfolded to the arithmetic status range. -/
theorem responseOk_iff (status : Nat) :
    responseOk status = true ↔ (200 ≤ status ∧ status ≤ 299) := by
  simp [responseOk]

/-- Element access through the variant-2 fetched derivation. -/
theorem deriveFetched2Aux_get? (es : List EventRecord) (k i : Nat) :
    (deriveFetched2Aux k es).get? i = (es.get? i).map (fun e => fetched2Display (k + i) e) := by
  induction es generalizing k i with
  | nil => simp [deriveFetched2Aux]
  | cons e rest ih =>
      cases i with
      | zero => simp [deriveFetched2Aux]
      | succ n =>
          simp only [deriveFetched2Aux, List.get?]
          rw [ih (k + 1) n]
          have : k + 1 + n = k + (n + 1) := by omega
          rw [this]

/-- Element access through the embedded derivation. -/
theorem deriveEmbeddedAux_get? (entries : List Json) (k i : Nat) :
    (deriveEmbeddedAux k entries).get? i =
      (entries.get? i).map (fun e => embeddedDisplay (k + i) e) := by
  induction entries generalizing k i with
  | nil => simp [deriveEmbeddedAux]
  | cons e rest ih =>
      cases i with
      | zero => simp [deriveEmbeddedAux]
      | succ n =>
          simp only [deriveEmbeddedAux, List.get?]
          rw [ih (k + 1) n]
          have : k + 1 + n = k + (n + 1) := by omega
          rw [this]

/- ===== Claim theorems ===== -/

/-- Claim C2: for every username, `getFinishedTasks(username)` succeeds with
`success: true` whenever the underlying `getUserTasks` fetch succeeded, and
its task list is exactly the subsequence of `getUserTasks`'s tasks whose
status is 'completed', in the same relative order; and it performs no
network request beyond the one `getUserTasks` makes. -/
theorem getFinishedTasks_refines_getUserTasks (net : Net) (username : String)
    (envelope : TasksEnvelope)
    (h : net.userTasksOutcome username = .ok envelope) :
    (∃ result : TasksEnvelope,
       (getFinishedTasksRun net username).1 = .ok result
       ∧ result.success = true
       ∧ ∃ ts, result.tasks = some ts
           ∧ List.Sublist ts (envelope.tasks.getD [])
           ∧ (∀ t ∈ ts, t.status = some "completed")
           ∧ (∀ t ∈ envelope.tasks.getD [], t.status = some "completed" → t ∈ ts))
    ∧ (getFinishedTasksRun net username).2 = (getUserTasksRun net username).2 := by
  have hrun : (getFinishedTasksRun net username).1 =
      .ok { success := true,
            tasks := some ((envelope.tasks.getD []).filter
              (fun task => task.status == some "completed")),
            error := none } := by
    simp [getFinishedTasksRun, getUserTasksRun, getFinishedTasksThen, h]
  refine ⟨⟨_, hrun, rfl, _, rfl, List.filter_sublist _, ?_, ?_⟩, rfl⟩
  · intro t ht
    have ht2 := (List.mem_filter.mp ht).2
    simpa using ht2
  · intro t ht hst
    exact List.mem_filter.mpr ⟨ht, by simp [hst]⟩

/-- Witness for C2 at a concrete oracle: one completed and one pending task. -/
theorem getFinishedTasks_refines_getUserTasks_witness :
    (∃ result : TasksEnvelope,
       (getFinishedTasksRun mixedTasksNet "alice").1 = .ok result
       ∧ result.success = true
       ∧ ∃ ts, result.tasks = some ts
           ∧ List.Sublist ts (mixedTasksEnvelope.tasks.getD [])
           ∧ (∀ t ∈ ts, t.status = some "completed")
           ∧ (∀ t ∈ mixedTasksEnvelope.tasks.getD [],
                t.status = some "completed" → t ∈ ts))
    ∧ (getFinishedTasksRun mixedTasksNet "alice").2 =
        (getUserTasksRun mixedTasksNet "alice").2 :=
  getFinishedTasks_refines_getUserTasks mixedTasksNet "alice" mixedTasksEnvelope rfl

/-- Claim C10: when `getUserTasks` resolves with an envelope whose `success`
is false (an HTTP-2xx logical failure), `getFinishedTasks` still fulfills
with `success: true`, the filtered task list, and no `error` field — the
underlying error message is discarded. -/
theorem getFinishedTasks_discards_logical_failure (net : Net) (username : String)
    (envelope : TasksEnvelope) (message : String)
    (h : net.userTasksOutcome username = .ok envelope)
    (hs : envelope.success = false)
    (he : envelope.error = some message) :
    ∃ result : TasksEnvelope,
      (getFinishedTasksRun net username).1 = .ok result
      ∧ result.success = true
      ∧ result.error = none
      ∧ result.tasks = some ((envelope.tasks.getD []).filter
          (fun task => task.status == some "completed")) := by
  exact ⟨{ success := true,
           tasks := some ((envelope.tasks.getD []).filter
             (fun task => task.status == some "completed")),
           error := none },
         by simp [getFinishedTasksRun, getUserTasksRun, getFinishedTasksThen, h],
         rfl, rfl, rfl⟩

/-- Witness for C10: a failed envelope with an error message and no tasks. -/
theorem getFinishedTasks_discards_logical_failure_witness :
    ∃ result : TasksEnvelope,
      (getFinishedTasksRun failedTasksNet "ghost").1 = .ok result
      ∧ result.success = true
      ∧ result.error = none
      ∧ result.tasks = some ((failedTasksEnvelope.tasks.getD []).filter
          (fun task => task.status == some "completed")) :=
  getFinishedTasks_discards_logical_failure failedTasksNet "ghost" failedTasksEnvelope
    "user not found" rfl rfl rfl

/-- Claim C8: a 2xx response whose body cannot be parsed as JSON does not
make `request` fail — it returns the null body; and for any response,
whether `request` succeeds is determined by the HTTP status alone, never by
parseability of the body. -/
theorem request_success_by_status_only (status : Nat) (body : Option Json) :
    ((200 ≤ status ∧ status ≤ 299) → request (.response status none) = .ok Json.null)
    ∧ ((∃ v, request (.response status body) = .ok v) ↔ (200 ≤ status ∧ status ≤ 299)) := by
  constructor
  · intro h
    have hok : responseOk status = true := (responseOk_iff status).mpr h
    simp [request, hok]
  · constructor
    · rintro ⟨v, hv⟩
      by_contra hc
      have hok : responseOk status = false := by
        cases hb : responseOk status with
        | false => rfl
        | true => exact absurd ((responseOk_iff status).mp hb) hc
      simp [request, hok] at hv
    · intro h
      have hok : responseOk status = true := (responseOk_iff status).mpr h
      exact ⟨body.getD Json.null, by simp [request, hok]⟩

/-- Witness for C8 at status 200 with an unparseable body. -/
theorem request_success_by_status_only_witness :
    request (.response 200 none) = .ok Json.null
    ∧ (∃ v, request (.response 200 none) = .ok v) :=
  ⟨(request_success_by_status_only 200 none).1 (by omega),
   (request_success_by_status_only 200 none).2.mpr (by omega)⟩

/-- Claim C7: a task-creation submission whose `info` is empty after
trimming (with a user present — a non-empty username, since the source's
`if (!username)` guard also rejects the falsy empty string first) is
rejected locally with the form error "Task info is required" on both
home-screen variants; the `Except.error` result means the handler returned
before `createTask` was invoked, so no network call is made. -/
theorem createTask_rejects_blank_info (username taskInfo taskType : String)
    (selectedEventId : Option String)
    (hu : username ≠ "")
    (h : jsTrim taskInfo = "") :
    handleCreateTask1Request (some username) taskInfo taskType selectedEventId =
      .error "Task info is required"
    ∧ handleCreateTask2Request (some username) taskInfo taskType =
      .error "Task info is required" := by
  constructor
  · simp [handleCreateTask1Request, hu, h]
  · simp [handleCreateTask2Request, hu, h]

/-- Witness for C7: the spec's scenario input, username "alice" and
info = two spaces. -/
theorem createTask_rejects_blank_info_witness :
    handleCreateTask1Request (some "alice") "  " "Other" none =
      .error "Task info is required"
    ∧ handleCreateTask2Request (some "alice") "  " "Other" =
      .error "Task info is required" :=
  createTask_rejects_blank_info "alice" "  " "Other" none (by decide) (by decide)

/-- Claim C3 counterexample: a 400 response whose body is a JSON object with
an EMPTY string `error` field.  The claim as stated requires the surfaced
message to be that `error` field (the empty string); the code instead
produces the generic status message, because `serializeError` accepts the
server message only when `message.length > 0`. -/
theorem request_empty_error_field_counterexample :
    request (.response 400 (some (Json.obj [("error", Json.str "")]))) =
      .error "Request failed with status 400"
    ∧ "Request failed with status 400" ≠ "" :=
  ⟨rfl, by decide⟩

/-- Claim C3 (amended): for every non-2xx response, `request` fails with the
body's `error` field as message when the parsed body is a JSON object whose
`error` field is a NON-EMPTY string, and otherwise — unparseable body
included — with exactly "Request failed with status <code>"; the spec-side
`specNon2xxMessage` states exactly that. -/
theorem request_non2xx_message (status : Nat) (body : Option Json)
    (h : ¬ (200 ≤ status ∧ status ≤ 299)) :
    request (.response status body) = .error (specNon2xxMessage status body) := by
  have hok : responseOk status = false := by
    cases hb : responseOk status with
    | false => rfl
    | true => exact absurd ((responseOk_iff status).mp hb) h
  cases body with
  | none =>
      simp [request, hok, specNon2xxMessage, serializeError, Json.truthy,
        Json.isJsObjectType]
  | some b =>
      cases b with
      | null =>
          simp [request, hok, specNon2xxMessage, serializeError, Json.truthy,
            Json.isJsObjectType]
      | bool bb =>
          cases bb <;>
            simp [request, hok, specNon2xxMessage, serializeError, Json.truthy,
              Json.isJsObjectType]
      | num n =>
          simp [request, hok, specNon2xxMessage, serializeError, Json.truthy,
            Json.isJsObjectType]
      | str s =>
          simp [request, hok, specNon2xxMessage, serializeError, Json.truthy,
            Json.isJsObjectType]
      | arr elems =>
          simp [request, hok, specNon2xxMessage, serializeError, Json.truthy,
            Json.isJsObjectType, Json.getField]
      | obj fields =>
          cases hf : (Json.obj fields).getField "error" with
          | none =>
              simp [request, hok, specNon2xxMessage, serializeError, Json.truthy,
                Json.isJsObjectType, hf]
          | some v =>
              cases v with
              | str s =>
                  by_cases hs : s = ""
                  · subst hs
                    simp [request, hok, specNon2xxMessage, serializeError,
                      Json.truthy, Json.isJsObjectType, hf, String.length]
                  · have hlen : 0 < s.length := (string_length_pos_iff s).mpr hs
                    simp [request, hok, specNon2xxMessage, serializeError,
                      Json.truthy, Json.isJsObjectType, hf, hlen, hs]
              | null =>
                  simp [request, hok, specNon2xxMessage, serializeError, Json.truthy,
                    Json.isJsObjectType, hf]
              | bool bb =>
                  simp [request, hok, specNon2xxMessage, serializeError, Json.truthy,
                    Json.isJsObjectType, hf]
              | num n =>
                  simp [request, hok, specNon2xxMessage, serializeError, Json.truthy,
                    Json.isJsObjectType, hf]
              | arr elems =>
                  simp [request, hok, specNon2xxMessage, serializeError, Json.truthy,
                    Json.isJsObjectType, hf]
              | obj fs =>
                  simp [request, hok, specNon2xxMessage, serializeError, Json.truthy,
                    Json.isJsObjectType, hf]

/-- Witness for the amended C3: a 404 with a server message, and a 500 with
an unparseable body; the spec-side message evaluates to the expected
strings. -/
theorem request_non2xx_message_witness :
    request (.response 404 (some (Json.obj [("error", Json.str "not found")]))) =
      .error (specNon2xxMessage 404 (some (Json.obj [("error", Json.str "not found")])))
    ∧ specNon2xxMessage 404 (some (Json.obj [("error", Json.str "not found")])) = "not found"
    ∧ request (.response 500 none) = .error (specNon2xxMessage 500 none)
    ∧ specNon2xxMessage 500 none = "Request failed with status 500" :=
  ⟨request_non2xx_message 404 _ (by omega), rfl,
   request_non2xx_message 500 none (by omega), rfl⟩

/-- Claim C1 counterexample: on home-screen variant 1's fetched-records
branch (index.tsx line 84), a record carrying neither `_id` nor `id`
derives an undefined id — not the synthetic placeholder `event-0` the claim
requires on the fetched branch. -/
theorem display_id_no_fallback_counterexample :
    displayEvents1 [bareEventRecord] [] =
      [{ id := none, name := none, date := none }]
    ∧ (none : Option Json) ≠ some (Json.str "event-0") :=
  ⟨rfl, by simp⟩

/-- Claim C1 (amended): the identifier precedence explicit `_id` → explicit
`id` → synthetic `event-(0-based index)` holds for object entries on the
embedded user-profile branch of both home-screen variants, and on the
fetched-records branch of variant 2; bare-string entries (embedded branch)
derive id = the string and name = "Event (1-based index)".  On variant 1's
fetched branch there is no synthetic fallback: the id is `_id || id`,
undefined when both are missing or empty (see the counterexample). -/
theorem display_id_precedence (entries : List Json) (es : List EventRecord) (i : Nat) :
    (∀ s : String, entries.get? i = some (Json.str s) →
       (deriveEmbeddedAux 0 entries).get? i =
         some { id := some (Json.str s),
                name := some (Json.str ("Event " ++ toString (i + 1))),
                date := none })
  ∧ (∀ fields : List (String × Json), entries.get? i = some (Json.obj fields) →
       ∃ d : DisplayEvent, (deriveEmbeddedAux 0 entries).get? i = some d
         ∧ (∀ s, (Json.obj fields).getField "_id" = some (Json.str s) → s ≠ "" →
              d.id = some (Json.str s))
         ∧ (((Json.obj fields).getField "_id" = none ∨
              (Json.obj fields).getField "_id" = some (Json.str "")) →
             ∀ s, (Json.obj fields).getField "id" = some (Json.str s) → s ≠ "" →
               d.id = some (Json.str s))
         ∧ (((Json.obj fields).getField "_id" = none ∨
              (Json.obj fields).getField "_id" = some (Json.str "")) →
            ((Json.obj fields).getField "id" = none ∨
              (Json.obj fields).getField "id" = some (Json.str "")) →
             d.id = some (Json.str ("event-" ++ toString i))))
  ∧ (∀ e : EventRecord, es.get? i = some e →
       ∃ d : DisplayEvent, (deriveFetched2Aux 0 es).get? i = some d
         ∧ (∀ s, e._id = some s → s ≠ "" → d.id = some (Json.str s))
         ∧ ((e._id = none ∨ e._id = some "") →
             ∀ s, e.id = some s → s ≠ "" → d.id = some (Json.str s))
         ∧ ((e._id = none ∨ e._id = some "") → (e.id = none ∨ e.id = some "") →
             d.id = some (Json.str ("event-" ++ toString i)))) := by
  refine ⟨?_, ?_, ?_⟩
  · intro s hs
    rw [deriveEmbeddedAux_get?, hs]
    simp [embeddedDisplay]
  · intro fields hf
    refine ⟨embeddedDisplay i (Json.obj fields),
      by rw [deriveEmbeddedAux_get?, hf]; simp, ?_, ?_, ?_⟩
    · intro s h1 h2
      simp [embeddedDisplay, jsOr, h1, Json.truthy, h2]
    · intro hmiss s h1 h2
      rcases hmiss with hmiss | hmiss <;>
        simp [embeddedDisplay, jsOr, hmiss, h1, Json.truthy, h2]
    · intro hmiss1 hmiss2
      rcases hmiss1 with hmiss1 | hmiss1 <;> rcases hmiss2 with hmiss2 | hmiss2 <;>
        simp [embeddedDisplay, jsOr, hmiss1, hmiss2, Json.truthy]
  · intro e he
    refine ⟨fetched2Display i e,
      by rw [deriveFetched2Aux_get?, he]; simp, ?_, ?_, ?_⟩
    · intro s h1 h2
      simp [fetched2Display, strOr, h1, h2]
    · intro hmiss s h1 h2
      rcases hmiss with hmiss | hmiss <;>
        simp [fetched2Display, strOr, hmiss, h1, h2]
    · intro hmiss1 hmiss2
      rcases hmiss1 with hmiss1 | hmiss1 <;> rcases hmiss2 with hmiss2 | hmiss2 <;>
        simp [fetched2Display, strOr, hmiss1, hmiss2]

/-- Witness for the amended C1: a bare-string entry, an object entry with
both ids (precedence picks `_id`), and a fetched record with neither id
(synthetic placeholder). -/
theorem display_id_precedence_witness :
    (deriveEmbeddedAux 0 [Json.str "ev1"]).get? 0 =
      some { id := some (Json.str "ev1"),
             name := some (Json.str ("Event " ++ toString (0 + 1))),
             date := none }
    ∧ (∃ d : DisplayEvent,
         (deriveEmbeddedAux 0
           [Json.obj [("_id", Json.str "A"), ("id", Json.str "B")]]).get? 0 = some d
         ∧ d.id = some (Json.str "A"))
    ∧ (∃ d : DisplayEvent,
         (deriveFetched2Aux 0 [bareEventRecord]).get? 0 = some d
         ∧ d.id = some (Json.str ("event-" ++ toString 0))) := by
  refine ⟨(display_id_precedence [Json.str "ev1"] [] 0).1 "ev1" rfl, ?_, ?_⟩
  · obtain ⟨d, hd, h1, _, _⟩ :=
      (display_id_precedence [Json.obj [("_id", Json.str "A"), ("id", Json.str "B")]] [] 0).2.1
        [("_id", Json.str "A"), ("id", Json.str "B")] rfl
    exact ⟨d, hd, h1 "A" rfl (by decide)⟩
  · obtain ⟨d, hd, _, _, h3⟩ :=
      (display_id_precedence [] [bareEventRecord] 0).2.2 bareEventRecord rfl
    exact ⟨d, hd, h3 (Or.inl rfl) (Or.inl rfl)⟩

/-- Claim C6: starting from a screen with no previously fetched events, when
the getEvents fetch succeeds with at least one record the displayed list of
either home-screen variant equals the fetched-collection derivation — the
embedded `user.events` (universally quantified here) contributes nothing;
when the fetch reports `success: false`, omits the events field, or returns
an empty list — or rejects, leaving the state untouched (last conjunct) —
the displayed list equals the embedded derivation. -/
theorem display_fetched_over_embedded (envelope : EventsEnvelope) (userEvents : List Json) :
    (∀ events, envelope.success = true → envelope.events = some events → events ≠ [] →
       displayEvents1 (applyEventsEnvelope envelope []) userEvents = deriveFetched1Aux 0 events
       ∧ displayEvents2 (applyEventsEnvelope envelope []) userEvents = deriveFetched2Aux 0 events)
  ∧ ((envelope.success = false ∨ envelope.events = none ∨ envelope.events = some []) →
       displayEvents1 (applyEventsEnvelope envelope []) userEvents = deriveEmbeddedAux 0 userEvents
       ∧ displayEvents2 (applyEventsEnvelope envelope []) userEvents = deriveEmbeddedAux 0 userEvents)
  ∧ (displayEvents1 [] userEvents = deriveEmbeddedAux 0 userEvents
     ∧ displayEvents2 [] userEvents = deriveEmbeddedAux 0 userEvents) := by
  refine ⟨?_, ?_, by simp [displayEvents1, displayEvents2]⟩
  · intro events h1 h2 hne
    have hlen : 0 < events.length := List.length_pos.mpr hne
    constructor <;>
      simp [displayEvents1, displayEvents2, applyEventsEnvelope, h1, h2, hlen]
  · intro hcase
    rcases hcase with hs | he | he
    · constructor <;>
        simp [displayEvents1, displayEvents2, applyEventsEnvelope, hs]
    · cases hb : envelope.success <;> constructor <;>
        simp [displayEvents1, displayEvents2, applyEventsEnvelope, hb, he]
    · cases hb : envelope.success <;> constructor <;>
        simp [displayEvents1, displayEvents2, applyEventsEnvelope, hb, he]

/-- Witness for C6: a successful fetch with one record versus a logically
failed fetch, over a nonempty embedded array. -/
theorem display_fetched_over_embedded_witness :
    (displayEvents1 (applyEventsEnvelope bobEventsEnvelope []) [Json.str "emb"] =
       deriveFetched1Aux 0 bobEventsList
     ∧ displayEvents2 (applyEventsEnvelope bobEventsEnvelope []) [Json.str "emb"] =
       deriveFetched2Aux 0 bobEventsList)
    ∧ (displayEvents1 (applyEventsEnvelope { success := false } []) [Json.str "emb"] =
         deriveEmbeddedAux 0 [Json.str "emb"]
       ∧ displayEvents2 (applyEventsEnvelope { success := false } []) [Json.str "emb"] =
         deriveEmbeddedAux 0 [Json.str "emb"]) :=
  ⟨(display_fetched_over_embedded bobEventsEnvelope [Json.str "emb"]).1
      bobEventsList rfl rfl (by simp [bobEventsList]),
   (display_fetched_over_embedded { success := false } [Json.str "emb"]).2.1
      (Or.inl rfl)⟩

/-- Claim C9: for every user record whose `events` field is absent or not an
array, the `Array.isArray` guard yields the empty list, both home-screen
variants display the empty event list (with no fetched records present —
the state in which the user-derived fallback is what is displayed), and the
part_001 `eventEntries` list is empty.  All derivations involved are total
Lean functions, so no run-time exception is possible. -/
theorem user_events_not_array_empty (userEventsField : Option Json)
    (h : ∀ xs, userEventsField ≠ some (Json.arr xs)) :
    jsArrayOrEmpty userEventsField = []
    ∧ displayEvents1 [] (jsArrayOrEmpty userEventsField) = []
    ∧ displayEvents2 [] (jsArrayOrEmpty userEventsField) = []
    ∧ eventEntries userEventsField = [] := by
  have hempty : jsArrayOrEmpty userEventsField = [] := by
    cases userEventsField with
    | none => rfl
    | some v =>
        cases v with
        | arr xs => exact absurd rfl (h xs)
        | null => rfl
        | bool b => rfl
        | num n => rfl
        | str s => rfl
        | obj fields => rfl
  refine ⟨hempty, ?_, ?_, ?_⟩ <;>
    simp [displayEvents1, displayEvents2, eventEntries, hempty,
      deriveEmbeddedAux, eventEntriesAux]

/-- Witness for C9: a user record whose `events` field is the string
"not-a-list". -/
theorem user_events_not_array_empty_witness :
    jsArrayOrEmpty (some (Json.str "not-a-list")) = []
    ∧ displayEvents1 [] (jsArrayOrEmpty (some (Json.str "not-a-list"))) = []
    ∧ displayEvents2 [] (jsArrayOrEmpty (some (Json.str "not-a-list"))) = []
    ∧ eventEntries (some (Json.str "not-a-list")) = [] :=
  user_events_not_array_empty (some (Json.str "not-a-list")) (by simp)

/-- Claim C4 counterexample: in the alice→bob scenario where bob's
`loadTasks` pair resolves before alice's, the tasks state ends as alice's
list, not bob's — `loadTasks` consults no cancellation flag, so the stale
result is applied.  The claim requires the screen to reflect only bob's
data. -/
theorem stale_tasks_applied_counterexample :
    staleTasksScenario.data.tasks = aliceTasks ∧ aliceTasks ≠ bobTasks :=
  ⟨rfl, by decide⟩

/-- Claim C4 (amended): the events effect abandons stale fetches — a
resolution belonging to any run other than the current one leaves the
machine unchanged, and in the alice→bob race (alice's events fetch
resolving after bob's) the fetched events end as bob's.  The tasks effect
registers no cancellation flag, so its stale results are applied (see the
counterexample). -/
theorem events_fetch_cancellation (m : HomeMachine) (run : Nat)
    (outcome : PromiseOutcome EventsEnvelope)
    (u1 u2 : String) (aliceEnv bobEnv : EventsEnvelope)
    (aliceEvents bobEvents : List EventRecord) :
    (run ≠ m.currentRun → stepEventsResolve m run outcome = m)
  ∧ (aliceEnv.success = true → aliceEnv.events = some aliceEvents →
     bobEnv.success = true → bobEnv.events = some bobEvents →
       (stepEventsResolve
          (stepEventsResolve
            (stepUsernameChange (stepUsernameChange m (some u1)) (some u2))
            (stepUsernameChange (stepUsernameChange m (some u1)) (some u2)).currentRun
            (.resolved bobEnv))
          (stepUsernameChange m (some u1)).currentRun
          (.resolved aliceEnv)).data.fetchedEvents = bobEvents) := by
  constructor
  · intro h
    simp [stepEventsResolve, h]
  · intro h1 h2 h3 h4
    simp [stepUsernameChange, stepEventsResolve, applyEventsEnvelope, h1, h2, h3, h4]

/-- Witness for the amended C4: a stale resolution against the initial
machine, and the concrete alice→bob race. -/
theorem events_fetch_cancellation_witness :
    (stepEventsResolve initialHomeMachine 5 (.resolved { success := true }) =
       initialHomeMachine)
  ∧ (stepEventsResolve
        (stepEventsResolve
          (stepUsernameChange (stepUsernameChange initialHomeMachine (some "alice")) (some "bob"))
          (stepUsernameChange (stepUsernameChange initialHomeMachine (some "alice")) (some "bob")).currentRun
          (.resolved bobEventsEnvelope))
        (stepUsernameChange initialHomeMachine (some "alice")).currentRun
        (.resolved aliceEventsEnvelope)).data.fetchedEvents = bobEventsList :=
  ⟨(events_fetch_cancellation initialHomeMachine 5 (.resolved { success := true })
      "alice" "bob" aliceEventsEnvelope bobEventsEnvelope aliceEventsList bobEventsList).1
      (by decide),
   (events_fetch_cancellation initialHomeMachine 5 (.resolved { success := true })
      "alice" "bob" aliceEventsEnvelope bobEventsEnvelope aliceEventsList bobEventsList).2
      rfl rfl rfl rfl⟩

/-- Claim C5 counterexample: `handleCreateConnection` awaits `addConnection`
and never inspects the envelope, so on an HTTP-2xx `success: false`
response the modal is closed, the form error cleared and `loadConnections()`
refetches — where the claim requires the error surfaced, the modal left
open, and no refetch. -/
theorem addConnection_failure_dismisses_counterexample :
    (applyAddConnectionOutcome (.resolved failedAddConnectionEnvelope)
        examplePeopleState).1.modalVisible = false
  ∧ (applyAddConnectionOutcome (.resolved failedAddConnectionEnvelope)
        examplePeopleState).2 = true
  ∧ (applyAddConnectionOutcome (.resolved failedAddConnectionEnvelope)
        examplePeopleState).1.formError = none
  ∧ examplePeopleState.modalVisible = true :=
  ⟨rfl, rfl, rfl, rfl⟩

/-- Claim C5 (amended): for the create-task forms of both home-screen
variants a failed mutation — `success: false` envelope or thrown error —
surfaces a message in the form, leaves the modal state untouched (open) and
the local task collection unchanged, and triggers no refetch.  For the
add-connection form this holds for thrown errors only: a fulfilled envelope
is never inspected, so a `success: false` response closes the modal, clears
the error and refetches (see the counterexample). -/
theorem mutation_failure_behaviour
    (now : Nat) (trimmedInfo taskType : String) (selectedEventName : Option String)
    (response : CreateTaskEnvelope) (message : String)
    (st1 : Home1FormState) (st2 : Home2FormState)
    (connResponse : AddConnectionEnvelope) (stp : PeopleFormState) :
    (response.success = false →
       (applyCreateTask1Outcome now trimmedInfo taskType selectedEventName
          (.resolved response) st1).createdTasks = st1.createdTasks
       ∧ (applyCreateTask1Outcome now trimmedInfo taskType selectedEventName
            (.resolved response) st1).modalVisible = st1.modalVisible
       ∧ (∃ msg, (applyCreateTask1Outcome now trimmedInfo taskType selectedEventName
            (.resolved response) st1).formError = some msg))
  ∧ ((applyCreateTask1Outcome now trimmedInfo taskType selectedEventName
        (.thrown message) st1).createdTasks = st1.createdTasks
     ∧ (applyCreateTask1Outcome now trimmedInfo taskType selectedEventName
          (.thrown message) st1).modalVisible = st1.modalVisible
     ∧ (applyCreateTask1Outcome now trimmedInfo taskType selectedEventName
          (.thrown message) st1).formError = some message)
  ∧ (response.success = false →
       (applyCreateTask2Outcome (.resolved response) st2).1.modalVisible = st2.modalVisible
       ∧ (applyCreateTask2Outcome (.resolved response) st2).2 = false
       ∧ (∃ msg, (applyCreateTask2Outcome (.resolved response) st2).1.formError = some msg))
  ∧ ((applyCreateTask2Outcome (.thrown message) st2).1.modalVisible = st2.modalVisible
     ∧ (applyCreateTask2Outcome (.thrown message) st2).2 = false
     ∧ (applyCreateTask2Outcome (.thrown message) st2).1.formError = some message)
  ∧ ((applyAddConnectionOutcome (.thrown message) stp).1.modalVisible = stp.modalVisible
     ∧ (applyAddConnectionOutcome (.thrown message) stp).1.connections = stp.connections
     ∧ (applyAddConnectionOutcome (.thrown message) stp).2 = false
     ∧ (applyAddConnectionOutcome (.thrown message) stp).1.formError = some message)
  ∧ (connResponse.success = false →
       (applyAddConnectionOutcome (.resolved connResponse) stp).1.modalVisible = false
       ∧ (applyAddConnectionOutcome (.resolved connResponse) stp).2 = true
       ∧ (applyAddConnectionOutcome (.resolved connResponse) stp).1.formError = none) := by
  refine ⟨?_, ?_, ?_, ?_, ?_, ?_⟩
  · intro hs
    cases response with
    | mk success task error =>
        cases hs
        cases task <;>
          exact ⟨rfl, rfl, ⟨_, rfl⟩⟩
  · exact ⟨rfl, rfl, rfl⟩
  · intro hs
    cases response with
    | mk success task error =>
        cases hs
        exact ⟨rfl, rfl, ⟨_, rfl⟩⟩
  · exact ⟨rfl, rfl, rfl⟩
  · exact ⟨rfl, rfl, rfl, rfl⟩
  · intro _
    exact ⟨rfl, rfl, rfl⟩

/-- Witness for the amended C5: concrete failing envelopes and a thrown
transport error against concrete open-modal states. -/
theorem mutation_failure_behaviour_witness :
    ((applyCreateTask1Outcome 0 "call Ada" "Other" none
        (.resolved { success := false, error := some "boom" })
        exampleHome1State).createdTasks = exampleHome1State.createdTasks
     ∧ (applyCreateTask1Outcome 0 "call Ada" "Other" none
          (.resolved { success := false, error := some "boom" })
          exampleHome1State).modalVisible = exampleHome1State.modalVisible
     ∧ (∃ msg, (applyCreateTask1Outcome 0 "call Ada" "Other" none
          (.resolved { success := false, error := some "boom" })
          exampleHome1State).formError = some msg))
    ∧ ((applyCreateTask2Outcome
          (.resolved { success := false, error := some "boom" })
          exampleHome2State).2 = false
       ∧ (∃ msg, (applyCreateTask2Outcome
            (.resolved { success := false, error := some "boom" })
            exampleHome2State).1.formError = some msg))
    ∧ ((applyAddConnectionOutcome (.thrown "network down")
          examplePeopleState).1.modalVisible = examplePeopleState.modalVisible
       ∧ (applyAddConnectionOutcome (.thrown "network down")
            examplePeopleState).2 = false)
    ∧ ((applyAddConnectionOutcome
          (.resolved failedAddConnectionEnvelope) examplePeopleState).1.modalVisible = false
       ∧ (applyAddConnectionOutcome
            (.resolved failedAddConnectionEnvelope) examplePeopleState).2 = true) := by
  obtain ⟨h1, _, h3, _, h5, h6⟩ := mutation_failure_behaviour 0 "call Ada" "Other" none
    { success := false, error := some "boom" } "network down"
    exampleHome1State exampleHome2State failedAddConnectionEnvelope examplePeopleState
  obtain ⟨h1a, h1b, h1c⟩ := h1 rfl
  obtain ⟨h3a, h3b, h3c⟩ := h3 rfl
  obtain ⟨h6a, h6b, _⟩ := h6 rfl
  exact ⟨⟨h1a, h1b, h1c⟩, ⟨h3b, h3c⟩, ⟨h5.1, h5.2.2.1⟩, ⟨h6a, h6b⟩⟩

end NetworkingApp
